import Mathlib

/-!
Verification of the protocol normalization layer of `gps/gps.py` (the
Python client interface to gpsd).  The decoders `gps.__oldstyle_unpack`
(legacy comma-delimited format) and `gps.__oldstyle_shim` (structured
tagged-record format) are embedded shallowly below, together with the
data model (`gpsfix`, `gpsdata` members, satellite records, the validity
bitmask constants) and the dispatching part of `gps.read`.

Modelling conventions:
* Python strings are lists of characters (`Str`); the string helpers
  (`split`, `strip`, ...) are defined structurally so that all proofs
  can be carried out by kernel evaluation.
* Python runtime values that can flow into the state are a single
  inductive `PyV`.  A Python float is represented exactly, as a decimal
  `m * 10^e` (constructor `vfloat m e`), plus a separate `vnan`
  constructor for the not-a-number sentinel; the source never performs
  float arithmetic or float comparison (it only tests `isnan`), so this
  exact representation is faithful on every execution path modelled.
  Exotic float literals ("inf"/"infinity", whitespace other than
  ASCII-ish, underscores) are not modelled by the numeric parsers.
* Python exceptions are explicit: a decoder returns the (possibly
  partially mutated) state together with `Option PyErr`, mirroring the
  fact that an exception escaping the decoding loop leaves the earlier
  in-place mutations applied.
-/

namespace Gpsd

/-- Python strings, as lists of characters. -/
abbrev Str := List Char

/-- The character data of a Lean string literal. -/
def str (s : String) : Str := s.data

/-- Python `s.split(c)` for a one-character separator: `"a,,b" → ["a","","b"]`,
`"" → [""]`; the result is never empty. -/
def splitSep (c : Char) : Str → List Str
  | [] => [[]]
  | x :: xs =>
    let r := splitSep c xs
    if x = c then [] :: r else (x :: r.headI) :: r.tail

/-- Characters treated as whitespace by Python's `str.split()`/`str.strip()`. -/
def isWs (c : Char) : Bool := c.isWhitespace

/-- Helper for `splitWs`: accumulates the current (reversed) token. -/
def splitWsAux (cur : Str) : Str → List Str
  | [] => if cur = [] then [] else [cur.reverse]
  | c :: cs =>
    if isWs c then
      if cur = [] then splitWsAux [] cs else cur.reverse :: splitWsAux [] cs
    else splitWsAux (c :: cur) cs

/-- Python `s.split()` with no argument: split on runs of whitespace,
discarding empty tokens. -/
def splitWs (s : Str) : List Str := splitWsAux [] s

/-- Python `s.strip()`: remove leading and trailing whitespace. -/
def pyStrip (s : Str) : Str :=
  ((s.dropWhile isWs).reverse.dropWhile isWs).reverse

/-- Decimal digit value of a character, if it is a digit. -/
def digit? (c : Char) : Option ℕ :=
  if '0' ≤ c ∧ c ≤ '9' then some (c.toNat - '0'.toNat) else none

/-- Value of a digit string (with accumulator); `none` on any non-digit. -/
def digitsVal (acc : ℕ) : Str → Option ℕ
  | [] => some acc
  | c :: cs =>
    match digit? c with
    | some d => digitsVal (acc * 10 + d) cs
    | none => none

/-- Python `int(s)`: strip whitespace, optional sign, then a nonempty
run of decimal digits; `none` models the `ValueError`. -/
def pyInt? (s : Str) : Option ℤ :=
  match pyStrip s with
  | '+' :: ds => if ds = [] then none else (digitsVal 0 ds).map Int.ofNat
  | '-' :: ds => if ds = [] then none else (digitsVal 0 ds).map (fun n => -(n : ℤ))
  | ds => if ds = [] then none else (digitsVal 0 ds).map Int.ofNat

/-- Leading run of digits of a string, and the remaining suffix. -/
def takeDigits : Str → List ℕ × Str
  | [] => ([], [])
  | c :: cs =>
    match digit? c with
    | some d => let (ds, r) := takeDigits cs; (d :: ds, r)
    | none => ([], c :: cs)

/-- Numeric value of a digit list. -/
def digitsToNat (ds : List ℕ) : ℕ := ds.foldl (fun a d => a * 10 + d) 0

/-- Exponent part of a float literal (the characters after `e`/`E`):
optional sign then a nonempty digit run. -/
def parseExp (s : Str) : Option ℤ :=
  match s with
  | '+' :: ds => if ds = [] then none else (digitsVal 0 ds).map Int.ofNat
  | '-' :: ds => if ds = [] then none else (digitsVal 0 ds).map (fun n => -(n : ℤ))
  | ds => if ds = [] then none else (digitsVal 0 ds).map Int.ofNat

/-- Unsigned body of a float literal: digits, optional `.digits`, optional
exponent; at least one mantissa digit.  Returns the exact value as a pair
`(m, e)` denoting `m * 10^e`. -/
def pyFloatBody? (s : Str) : Option (ℕ × ℤ) :=
  let (ip, r1) := takeDigits s
  match r1 with
  | '.' :: r2 =>
    let (fp, r3) := takeDigits r2
    if ip = [] ∧ fp = [] then none
    else
      let m := digitsToNat (ip ++ fp)
      match r3 with
      | [] => some (m, -(fp.length : ℤ))
      | 'e' :: r4 => (parseExp r4).map fun ev => (m, ev - (fp.length : ℤ))
      | 'E' :: r4 => (parseExp r4).map fun ev => (m, ev - (fp.length : ℤ))
      | _ => none
  | 'e' :: r4 =>
    if ip = [] then none
    else (parseExp r4).map fun ev => (digitsToNat ip, ev)
  | 'E' :: r4 =>
    if ip = [] then none
    else (parseExp r4).map fun ev => (digitsToNat ip, ev)
  | [] => if ip = [] then none else some (digitsToNat ip, 0)
  | _ => none

/-- Python runtime values that can reach the GPS state: floats (exact
decimal `m * 10^e`, with NaN separate), ints, strings, booleans, `None`,
and the JSON-decoded lists and dicts handed over by the tokenizer. -/
inductive PyV where
  | vnan
  | vfloat (m : ℤ) (e : ℤ)
  | vint (n : ℤ)
  | vstr (s : Str)
  | vbool (b : Bool)
  | vnone
  | vlist (xs : List PyV)
  | vdict (kvs : List (Str × PyV))

/-- Python `float(s)`: strip whitespace, optional sign, then either `nan`
(any case) or a decimal literal with optional fraction and exponent.
`none` models the `ValueError`. -/
def pyFloat? (s : Str) : Option PyV :=
  let t := pyStrip s
  let (sgn, body) :=
    match t with
    | '+' :: r => ((1 : ℤ), r)
    | '-' :: r => ((-1 : ℤ), r)
    | r => ((1 : ℤ), r)
  if body.map Char.toLower = str "nan" then some .vnan
  else (pyFloatBody? body).map fun p => .vfloat (sgn * (p.1 : ℤ)) p.2

/-- The Python exceptions that the decoders can raise. -/
inductive PyErr where
  | indexError
  | keyError (k : Str)
  | valueError
  | typeError
  | attributeError
deriving DecidableEq

/-- Python truthiness (`if x:`). -/
def truthy : PyV → Bool
  | .vnan => true
  | .vfloat m _ => m != 0
  | .vint n => n != 0
  | .vstr s => !s.isEmpty
  | .vbool b => b
  | .vnone => false
  | .vlist xs => !xs.isEmpty
  | .vdict kvs => !kvs.isEmpty

/-- `isnan(x)` from the source: it tests `str(x) == 'nan'`, which holds for
the NaN float (and for the literal string `"nan"`). -/
def isnan : PyV → Bool
  | .vnan => true
  | .vstr s => s = str "nan"
  | _ => false

/-- Python `type(x) == type(0.0)`: is `x` a float? -/
def isFloatType : PyV → Bool
  | .vnan => true
  | .vfloat _ _ => true
  | _ => false

/-- Python `x is None`. -/
def isNone : PyV → Bool
  | .vnone => true
  | _ => false

/-- Python `x.encode("ascii")` as used on the incoming time value: defined
for strings (bytes and str coincide for the ASCII payloads of this
protocol), `AttributeError` (`none`) for every non-string. -/
def encodeAscii : PyV → Option PyV
  | .vstr s => some (.vstr s)
  | _ => none

/-- `self.gps_id += " " + subtype`: string concatenation, `TypeError`
(`none`) unless both operands are strings. -/
def concatId : PyV → PyV → Option PyV
  | .vstr a, .vstr b => some (.vstr (a ++ ' ' :: b))
  | _, _ => none

/-- Dictionary lookup on the tokenizer's key→value mapping. -/
def lookup (k : Str) : List (Str × PyV) → Option PyV
  | [] => none
  | (k', v) :: rest => if k' = k then some v else lookup k rest

/-- `self.data.get("class") == name` for a string literal `name`. -/
def classIs (dat : List (Str × PyV)) (name : Str) : Bool :=
  match lookup (str "class") dat with
  | some (.vstr s) => s = name
  | _ => false

/-- Python `x & ~mask` on a nonnegative int: clear the bits of `mask`.
Written with xor so that it evaluates by kernel reduction; bitwise it is
exactly `a AND (NOT b)` per bit. -/
def pyAndNot (x mask : ℕ) : ℕ := x ^^^ (x &&& mask)

theorem testBit_pyAndNot (x mask k : ℕ) :
    (pyAndNot x mask).testBit k = (x.testBit k && !mask.testBit k) := by
  unfold pyAndNot
  rw [Nat.testBit_xor, Nat.testBit_land]
  cases x.testBit k <;> cases mask.testBit k <;> rfl

-- The validity-bitmask constants (source lines 24-54).
def ONLINE_SET : ℕ := 1 <<< 1
def TIME_SET : ℕ := 1 <<< 2
def TIMERR_SET : ℕ := 1 <<< 3
def LATLON_SET : ℕ := 1 <<< 4
def ALTITUDE_SET : ℕ := 1 <<< 5
def SPEED_SET : ℕ := 1 <<< 6
def TRACK_SET : ℕ := 1 <<< 7
def CLIMB_SET : ℕ := 1 <<< 8
def STATUS_SET : ℕ := 1 <<< 9
def MODE_SET : ℕ := 1 <<< 10
def DOP_SET : ℕ := 1 <<< 11
def HERR_SET : ℕ := 1 <<< 12
def VERR_SET : ℕ := 1 <<< 13
def ATTITUDE_SET : ℕ := 1 <<< 14
def SATELLITE_SET : ℕ := 1 <<< 15
def SPEEDERR_SET : ℕ := 1 <<< 16
def TRACKERR_SET : ℕ := 1 <<< 17
def CLIMBERR_SET : ℕ := 1 <<< 18
def DEVICE_SET : ℕ := 1 <<< 19
def DEVICELIST_SET : ℕ := 1 <<< 20
def DEVICEID_SET : ℕ := 1 <<< 21
def RTCM2_SET : ℕ := 1 <<< 22
def RTCM3_SET : ℕ := 1 <<< 23
def AIS_SET : ℕ := 1 <<< 24
def PACKET_SET : ℕ := 1 <<< 25
def SUBFRAME_SET : ℕ := 1 <<< 26
def GST_SET : ℕ := 1 <<< 27
def VERSION_SET : ℕ := 1 <<< 28
def POLICY_SET : ℕ := 1 <<< 29
def ERROR_SET : ℕ := 1 <<< 30
def UNION_SET : ℕ :=
  RTCM2_SET ||| RTCM3_SET ||| SUBFRAME_SET ||| AIS_SET ||| VERSION_SET |||
  DEVICELIST_SET ||| ERROR_SET ||| GST_SET

def STATUS_NO_FIX : ℤ := 0
def STATUS_FIX : ℤ := 1
def STATUS_DGPS_FIX : ℤ := 2
def MODE_NO_FIX : ℤ := 1
def MODE_2D : ℤ := 2
def MODE_3D : ℤ := 3

/-- A satellite record (`gpsdata.satellite`).  The legacy decoder builds it
from ints (with `used = None` when the fifth field is absent); the
structured decoder copies the JSON values through. -/
structure Satellite where
  PRN : PyV
  elevation : PyV
  azimuth : PyV
  ss : PyV
  used : PyV

/-- The fix snapshot (`class gpsfix`). -/
structure gpsfix where
  mode : PyV
  time : PyV
  ept : PyV
  latitude : PyV
  longitude : PyV
  epx : PyV
  epy : PyV
  altitude : PyV
  epv : PyV
  track : PyV
  speed : PyV
  climb : PyV
  epd : PyV
  eps : PyV
  epc : PyV

/-- `gpsfix.__init__`. -/
def gpsfix.init : gpsfix where
  mode := .vint MODE_NO_FIX
  time := .vnan
  ept := .vnan
  latitude := .vfloat 0 0
  longitude := .vfloat 0 0
  epx := .vnan
  epy := .vnan
  altitude := .vnan
  epv := .vnan
  track := .vnan
  speed := .vnan
  climb := .vnan
  epd := .vnan
  eps := .vnan
  epc := .vnan

/-- The per-session GPS state: the members of `gpsdata` together with the
attributes that `gps.__oldstyle_shim`, `gps.__oldstyle_unpack` and
`gps.__init__` create on the instance (`path`, `activated`, `serialmode`,
the shim-era `epy`, and `newstyle`).  Attributes that do not exist before
their first assignment are initialized to `vnone` here; no modelled claim
distinguishes an absent attribute from `None`. -/
structure GpsState where
  online : PyV
  valid : ℕ
  fix : gpsfix
  status : PyV
  utc : PyV
  satellites_used : ℤ
  xdop : PyV
  ydop : PyV
  vdop : PyV
  tdop : PyV
  pdop : PyV
  hdop : PyV
  gdop : PyV
  epe : PyV
  satellites : List Satellite
  gps_id : PyV
  driver_mode : PyV
  baudrate : PyV
  stopbits : PyV
  cycle : PyV
  mincycle : PyV
  device : PyV
  devices : List PyV
  version : PyV
  path : PyV
  activated : PyV
  serialmode : PyV
  epy : PyV
  newstyle : Bool

/-- `gpsdata.__init__` plus `gps.__init__` (fresh session state). -/
def GpsState.init : GpsState where
  online := .vint 0
  valid := 0
  fix := gpsfix.init
  status := .vint STATUS_NO_FIX
  utc := .vstr []
  satellites_used := 0
  xdop := .vint 0
  ydop := .vint 0
  vdop := .vint 0
  tdop := .vint 0
  pdop := .vfloat 0 0
  hdop := .vfloat 0 0
  gdop := .vfloat 0 0
  epe := .vfloat 0 0
  satellites := []
  gps_id := .vnone
  driver_mode := .vint 0
  baudrate := .vint 0
  stopbits := .vint 0
  cycle := .vint 0
  mincycle := .vint 0
  device := .vnone
  devices := []
  version := .vnone
  path := .vnone
  activated := .vnone
  serialmode := .vnone
  epy := .vnone
  newstyle := false

/-- A decode result: the (possibly partially mutated) state, and the
exception if one escaped. -/
abbrev R := GpsState × Option PyErr

/-- The `cnv=float` conversion of the legacy `default` helper. -/
def cnvFloat (s : Str) : Option PyV := pyFloat? s

/-- The `cnv=int` conversion of the legacy `default` helper. -/
def cnvInt (s : Str) : Option PyV := (pyInt? s).map .vint

/-- The legacy decoder's `default(i, vbit, cnv)` closure (source lines
182-191): `fields[i]` (IndexError when out of range); a literal `?` or a
conversion failure yields NaN without touching the bitmask; otherwise the
converted value is returned and `vbit` is ORed into `self.valid`. -/
def oldDefault (ofs : List Str) (i : ℕ) (vbit : ℕ) (cnv : Str → Option PyV)
    (s : GpsState) : Except PyErr (PyV × GpsState) :=
  match ofs[i]? with
  | none => .error .indexError
  | some f =>
    if f = str "?" then .ok (.vnan, s)
    else
      match cnv f with
      | none => .ok (.vnan, s)
      | some v => .ok (v, { s with valid := s.valid ||| vbit })

/-- The group of validity bits cleared before a legacy fix report is
re-derived (source lines 192-197). -/
def OLD_FIX_MASK : ℕ :=
  TIME_SET ||| TIMERR_SET ||| LATLON_SET ||| ALTITUDE_SET |||
  HERR_SET ||| VERR_SET ||| TRACK_SET ||| SPEED_SET |||
  CLIMB_SET ||| SPEEDERR_SET ||| CLIMBERR_SET ||| MODE_SET

/-- The tail of the legacy fix-report branch, from
`self.fix.ept = default(2, TIMERR_SET)` (source line 202) to the end of
the mode handling (line 221), as a function of the sub-field list and the
state reached after the time handling. -/
def processO_rest (ofs : List Str) (s : GpsState) : R :=
  match oldDefault ofs 2 TIMERR_SET cnvFloat s with
  | .error e => (s, some e)
  | .ok (v2, s) =>
    let s := { s with fix := { s.fix with ept := v2 } }
    match oldDefault ofs 3 LATLON_SET cnvFloat s with
    | .error e => (s, some e)
    | .ok (v3, s) =>
      let s := { s with fix := { s.fix with latitude := v3 } }
      match oldDefault ofs 4 0 cnvFloat s with
      | .error e => (s, some e)
      | .ok (v4, s) =>
        let s := { s with fix := { s.fix with longitude := v4 } }
        match oldDefault ofs 5 ALTITUDE_SET cnvFloat s with
        | .error e => (s, some e)
        | .ok (v5, s) =>
          let s := { s with fix := { s.fix with altitude := v5 } }
          match oldDefault ofs 6 HERR_SET cnvFloat s with
          | .error e => (s, some e)
          | .ok (v6, s) =>
            -- `self.fix.epx = self.epy = default(6, HERR_SET)`: note the
            -- second target is the *instance* attribute `self.epy`, not
            -- `self.fix.epy`.
            let s := { s with fix := { s.fix with epx := v6 }, epy := v6 }
            match oldDefault ofs 7 VERR_SET cnvFloat s with
            | .error e => (s, some e)
            | .ok (v7, s) =>
              let s := { s with fix := { s.fix with epv := v7 } }
              match oldDefault ofs 8 TRACK_SET cnvFloat s with
              | .error e => (s, some e)
              | .ok (v8, s) =>
                let s := { s with fix := { s.fix with track := v8 } }
                match oldDefault ofs 9 SPEED_SET cnvFloat s with
                | .error e => (s, some e)
                | .ok (v9, s) =>
                  let s := { s with fix := { s.fix with speed := v9 } }
                  match oldDefault ofs 10 CLIMB_SET cnvFloat s with
                  | .error e => (s, some e)
                  | .ok (v10, s) =>
                    let s := { s with fix := { s.fix with climb := v10 } }
                    match oldDefault ofs 11 0 cnvFloat s with
                    | .error e => (s, some e)
                    | .ok (v11, s) =>
                      let s := { s with fix := { s.fix with epd := v11 } }
                      match oldDefault ofs 12 SPEEDERR_SET cnvFloat s with
                      | .error e => (s, some e)
                      | .ok (v12, s) =>
                        let s := { s with fix := { s.fix with eps := v12 } }
                        match oldDefault ofs 13 CLIMBERR_SET cnvFloat s with
                        | .error e => (s, some e)
                        | .ok (v13, s) =>
                          let s := { s with fix := { s.fix with epc := v13 } }
                          if 14 < ofs.length then
                            match oldDefault ofs 14 MODE_SET cnvInt s with
                            | .error e => (s, some e)
                            | .ok (vm, s) =>
                              ({ s with fix := { s.fix with mode := vm } }, none)
                          else
                            let m := if s.valid &&& ALTITUDE_SET ≠ 0
                                     then PyV.vint MODE_2D else PyV.vint MODE_3D
                            let s := { s with fix := { s.fix with mode := m } }
                            ({ s with valid := s.valid ||| MODE_SET }, none)

/-- The `O` (fix-report) branch of the legacy decoder (source lines
177-221), for a payload `data` that is nonempty and does not begin with
`?` (those cases are handled by the caller).  `iso` is the external
`misc.isotime` collaborator. -/
def processO (iso : PyV → PyV) (s0 : GpsState) (data : Str) : R :=
  let ofs := splitWs data
  match ofs[0]? with
  | none => (s0, some .indexError)
  | some f0 =>
    if f0 = str "?" then
      ({ s0 with fix := { s0.fix with mode := .vint MODE_NO_FIX } }, none)
    else
      let s := { s0 with valid := pyAndNot s0.valid OLD_FIX_MASK }
      match ofs[1]? with
      | none => (s, some .indexError)
      | some f1 =>
        let s := { s with utc := .vstr f1 }
        match oldDefault ofs 1 TIME_SET cnvFloat s with
        | .error e => (s, some e)
        | .ok (t, s) =>
          let s := { s with fix := { s.fix with time := t } }
          let s := if isnan s.fix.time then s else { s with utc := iso s.fix.time }
          processO_rest ofs s

/-- `map(int, block.split())` for one satellite block: `none` models the
`ValueError` of a failing conversion. -/
def mapIntList : List Str → Option (List ℤ)
  | [] => some []
  | t :: ts =>
    match pyInt? t with
    | none => none
    | some n => (mapIntList ts).map (n :: ·)

/-- `gps.satellite(*ints)`: four or five positional arguments construct a
record (`used` defaults to `None`); any other arity is a `TypeError`. -/
def mkSatellite : List ℤ → Except PyErr Satellite
  | [p, el, az, sv] => .ok ⟨.vint p, .vint el, .vint az, .vint sv, .vnone⟩
  | [p, el, az, sv, u] => .ok ⟨.vint p, .vint el, .vint az, .vint sv, .vint u⟩
  | _ => .error .typeError

/-- The `for i in range(d1)` loop of the `Y` branch: index `i` into the
colon-separated blocks, building `d1` records. -/
def buildSats (blocks : List Str) : ℕ → ℕ → Except PyErr (List Satellite)
  | _, 0 => .ok []
  | i, k + 1 =>
    match blocks[i]? with
    | none => .error .indexError
    | some b =>
      match mapIntList (splitWs b) with
      | none => .error .valueError
      | some ns => do
        let sat ← mkSatellite ns
        let rest ← buildSats blocks (i + 1) k
        pure (sat :: rest)

/-- The `Y` (satellite-list) branch of the legacy decoder (source lines
225-233): colon-separated blocks, the last whitespace token before the
first colon is the count; the satellite sequence is replaced wholesale
only if the whole loop succeeds (the list is assigned after the loop). -/
def processY (s : GpsState) (data : Str) : R :=
  let sats := splitSep ':' data
  let pre := splitWs sats.headI
  match pre.getLast? with
  | none => (s, some .indexError)
  | some t =>
    match pyInt? t with
    | none => (s, some .valueError)
    | some d1 =>
      match buildSats sats.tail 0 d1.toNat with
      | .error e => (s, some e)
      | .ok newsats =>
        ({ s with satellites := newsats, valid := s.valid ||| SATELLITE_SET }, none)

/-- Dispatch on one field's payload (source lines 169-233): an empty
payload raises IndexError (`data[0]`); a payload beginning with `?` is
skipped; otherwise the upper-cased command letter selects the branch. -/
def processData (iso : PyV → PyV) (s : GpsState) (cmd : Char) : Str → R
  | [] => (s, some .indexError)
  | d0 :: dr =>
    if d0 = '?' then (s, none)
    else if cmd = 'F' then ({ s with device := .vstr (d0 :: dr) }, none)
    else if cmd = 'I' then ({ s with gps_id := .vstr (d0 :: dr) }, none)
    else if cmd = 'O' then processO iso s (d0 :: dr)
    else if cmd = 'X' then
      match pyFloat? (d0 :: dr) with
      | none => (s, some .valueError)
      | some v => ({ s with online := v, valid := s.valid ||| ONLINE_SET }, none)
    else if cmd = 'Y' then processY s (d0 :: dr)
    else (s, none)

/-- Processing of a single comma-separated field of a legacy message
(source lines 166-168): empty fields and fields without `=` in second
position are skipped; a one-character field raises IndexError
(`field[1]`). -/
def processField1 (iso : PyV → PyV) (s : GpsState) (field : Str) : R :=
  match field with
  | [] => (s, none)
  | [_] => (s, some .indexError)
  | c0 :: c1 :: rest =>
    if c1 ≠ '=' then (s, none)
    else processData iso s c0.toUpper rest

/-- One step of the field loop: once an exception has escaped, the loop is
over and the state is frozen. -/
def stepField (iso : PyV → PyV) : R → Str → R
  | (s, some e), _ => (s, some e)
  | (s, none), f => processField1 iso s f

/-- `gps.__oldstyle_unpack` (source lines 161-233): reset `fix.time` to
`0.0`, split on commas, and if the first field is the `GPSD` sentinel,
process the remaining fields in order. -/
def oldstyle_unpack (iso : PyV → PyV) (s : GpsState) (buf : Str) : R :=
  let s := { s with fix := { s.fix with time := .vfloat 0 0 } }
  let fields := splitSep ',' (pyStrip buf)
  if fields.headI = str "GPSD" then
    fields.tail.foldl (stepField iso) (s, none)
  else (s, none)

/-- The structured decoder's `default(k, dflt, vbit)` closure (source
lines 237-242): an absent key returns the default and leaves the bitmask
alone; a present key ORs `vbit` in and returns the stored value. -/
def newDefault (dat : List (Str × PyV)) (k : Str) (dflt : PyV) (vbit : ℕ)
    (s : GpsState) : PyV × GpsState :=
  match lookup k dat with
  | none => (dflt, s)
  | some v => (v, { s with valid := s.valid ||| vbit })

/-- Tail of the `DEVICE` branch (source lines 254-258). -/
def deviceRest (dat : List (Str × PyV)) (s : GpsState) : R :=
  let (dm, s) := newDefault dat (str "native") (.vint 0) 0 s
  let s := { s with driver_mode := dm }
  let (b, s) := newDefault dat (str "bps") (.vint 0) 0 s
  let s := { s with baudrate := b }
  let (sm, s) := newDefault dat (str "serialmode") (.vstr (str "8N1")) 0 s
  let s := { s with serialmode := sm }
  let (cy, s) := newDefault dat (str "cycle") .vnan 0 s
  let s := { s with cycle := cy }
  let (mc, s) := newDefault dat (str "mincycle") .vnan 0 s
  ({ s with mincycle := mc }, none)

/-- Tail of the `TPV` branch (source lines 268-281). -/
def tpvRest (dat : List (Str × PyV)) (s : GpsState) : R :=
  let (v1, s) := newDefault dat (str "ept") .vnan TIMERR_SET s
  let s := { s with fix := { s.fix with ept := v1 } }
  let (v2, s) := newDefault dat (str "lat") .vnan LATLON_SET s
  let s := { s with fix := { s.fix with latitude := v2 } }
  let (v3, s) := newDefault dat (str "lon") .vnan 0 s
  let s := { s with fix := { s.fix with longitude := v3 } }
  let (v4, s) := newDefault dat (str "alt") .vnan ALTITUDE_SET s
  let s := { s with fix := { s.fix with altitude := v4 } }
  let (v5, s) := newDefault dat (str "epx") .vnan HERR_SET s
  let s := { s with fix := { s.fix with epx := v5 } }
  let (v6, s) := newDefault dat (str "epy") .vnan HERR_SET s
  let s := { s with fix := { s.fix with epy := v6 } }
  let (v7, s) := newDefault dat (str "epv") .vnan VERR_SET s
  let s := { s with fix := { s.fix with epv := v7 } }
  let (v8, s) := newDefault dat (str "track") .vnan TRACK_SET s
  let s := { s with fix := { s.fix with track := v8 } }
  let (v9, s) := newDefault dat (str "speed") .vnan SPEED_SET s
  let s := { s with fix := { s.fix with speed := v9 } }
  let (v10, s) := newDefault dat (str "climb") .vnan CLIMB_SET s
  let s := { s with fix := { s.fix with climb := v10 } }
  let (v11, s) := newDefault dat (str "epd") .vnan 0 s
  let s := { s with fix := { s.fix with epd := v11 } }
  let (v12, s) := newDefault dat (str "eps") .vnan SPEEDERR_SET s
  let s := { s with fix := { s.fix with eps := v12 } }
  let (v13, s) := newDefault dat (str "epc") .vnan CLIMBERR_SET s
  let s := { s with fix := { s.fix with epc := v13 } }
  let (vm, s) := newDefault dat (str "mode") (.vint 0) MODE_SET s
  ({ s with fix := { s.fix with mode := vm } }, none)

/-- One satellite element of a structured `SKY` record:
`gps.satellite(PRN=sat['PRN'], elevation=sat['el'], azimuth=sat['az'],
ss=sat['ss'], used=sat['used'])`.  Subscripting a non-dict raises
TypeError; a missing key raises KeyError. -/
def satFromJson (v : PyV) : Except PyErr Satellite :=
  match v with
  | .vdict kv =>
    match lookup (str "PRN") kv with
    | none => .error (.keyError (str "PRN"))
    | some prn =>
      match lookup (str "el") kv with
      | none => .error (.keyError (str "el"))
      | some el =>
        match lookup (str "az") kv with
        | none => .error (.keyError (str "az"))
        | some az =>
          match lookup (str "ss") kv with
          | none => .error (.keyError (str "ss"))
          | some sv =>
            match lookup (str "used") kv with
            | none => .error (.keyError (str "used"))
            | some u => .ok ⟨prn, el, az, sv, u⟩
  | _ => .error .typeError

/-- The satellite loop of the `SKY` branch: elements are appended one by
one, so an exception leaves the already-appended prefix in place. -/
def buildSkySats : List PyV → List Satellite × Option PyErr
  | [] => ([], none)
  | v :: vs =>
    match satFromJson v with
    | .error e => ([], some e)
    | .ok sat =>
      let (rest, e) := buildSkySats vs
      (sat :: rest, e)

/-- Count of satellites with a truthy `used` flag (source lines 289-292). -/
def countUsed : List Satellite → ℤ
  | [] => 0
  | sat :: rest => (if truthy sat.used then 1 else 0) + countUsed rest

/-- End of the `SKY` branch (source lines 289-293): recompute
`satellites_used` and assign the whole bitmask. -/
def skyFinish (s : GpsState) : R :=
  let s := { s with satellites_used := countUsed s.satellites }
  ({ s with valid := ONLINE_SET ||| SATELLITE_SET }, none)

/-- The `gps_id` assembly of the `DEVICE` branch (source lines 251-253)
followed by the rest of the branch: `self.gps_id = driver`, then if the
subtype is truthy, `self.gps_id += " " + subtype` (a `TypeError` unless
both are strings). -/
def deviceGpsId (dat : List (Str × PyV)) (driver subtype : PyV) (s : GpsState) : R :=
  if truthy subtype then
    match concatId driver subtype with
    | none => (s, some .typeError)
    | some g => deviceRest dat { s with gps_id := g }
  else deviceRest dat s

/-- The `DEVICE` branch of the shim (source lines 245-258). -/
def processDevice (dat : List (Str × PyV)) (s : GpsState) : R :=
  let s := { s with valid := ONLINE_SET ||| DEVICE_SET }
  match lookup (str "path") dat with
  | none => (s, some (.keyError (str "path")))
  | some p =>
    let s := { s with path := p }
    let (a, s) := newDefault dat (str "activated") .vnone 0 s
    let s := { s with activated := a }
    let (driver, s) := newDefault dat (str "driver") .vnone DEVICEID_SET s
    let (subtype, s) := newDefault dat (str "subtype") .vnone DEVICEID_SET s
    let s := { s with gps_id := driver }
    deviceGpsId dat driver subtype s

/-- The `TPV` branch of the shim (source lines 259-281). -/
def processTPV (iso : PyV → PyV) (dat : List (Str × PyV)) (s : GpsState) : R :=
  let s := { s with valid := ONLINE_SET }
  let (u, s) := newDefault dat (str "time") .vnone TIME_SET s
  let s := { s with utc := u }
  if isNone s.utc then tpvRest dat s
  else if isFloatType s.fix.time then
    -- `type(self.fix.time) == type(0.0)`: the branch tests the type of
    -- the *previous* fix time, then stores the incoming value directly.
    tpvRest dat { s with fix := { s.fix with time := s.utc } }
  else
    match encodeAscii s.utc with
    | none => (s, some .attributeError)
    | some enc => tpvRest dat { s with fix := { s.fix with time := iso enc } }

/-- The `SKY` branch of the shim (source lines 282-293). -/
def processSKY (dat : List (Str × PyV)) (s : GpsState) : R :=
  let (x, s) := newDefault dat (str "xdop") .vnan DOP_SET s
  let s := { s with xdop := x }
  let (y, s) := newDefault dat (str "ydop") .vnan DOP_SET s
  let s := { s with ydop := y }
  let (v, s) := newDefault dat (str "vdop") .vnan DOP_SET s
  let s := { s with vdop := v }
  let (h, s) := newDefault dat (str "hdop") .vnan DOP_SET s
  let s := { s with hdop := h }
  let (p, s) := newDefault dat (str "pdop") .vnan DOP_SET s
  let s := { s with pdop := p }
  let (g, s) := newDefault dat (str "gdop") .vnan DOP_SET s
  let s := { s with gdop := g }
  match lookup (str "satellites") dat with
  | none => skyFinish s
  | some sv =>
    match sv with
    | .vlist satlist =>
      let (newsats, e) := buildSkySats satlist
      let s := { s with satellites := newsats }
      match e with
      | some err => (s, some err)
      | none => skyFinish s
    | _ => ({ s with satellites := [] }, some .typeError)

/-- `gps.__oldstyle_shim` (source lines 235-293): interpret the
tokenizer's key→value mapping according to its `class` tag.  `iso` is the
external `misc.isotime` collaborator. -/
def oldstyle_shim (iso : PyV → PyV) (dat : List (Str × PyV)) (s : GpsState) : R :=
  if classIs dat (str "VERSION") then
    ({ s with version := .vdict dat }, none)
  else if classIs dat (str "DEVICE") then
    processDevice dat s
  else if classIs dat (str "TPV") then
    processTPV iso dat s
  else if classIs dat (str "SKY") then
    processSKY dat s
  else (s, none)

/-- Modelled from the spec: `isotime` from the external `misc` module
("timestamp formatting utilities" are an out-of-scope collaborator; the
spec states that a string time "is converted to epoch seconds" and that a
numeric fix time "drives UTC string derivation").  The model maps a
string to a numeric epoch value and a number to a string; the claims
depend only on which constructor the result uses, never on the exact
epoch value or rendering, so those are given by simple total stand-ins. -/
def isotime : PyV → PyV
  | .vstr s => .vfloat ((digitsVal 0 (s.filter fun c => (digit? c).isSome)).getD 0) 0
  | .vfloat m e => .vstr (str "T" ++ (if m < 0 then ['-'] else []) ++
      Nat.toDigits 10 m.natAbs ++ str "e" ++ (if e < 0 then ['-'] else []) ++
      Nat.toDigits 10 e.natAbs)
  | .vnan => .vstr (str "nan")
  | x => x

/-- Does position `i` of a legacy fix-report payload supply a value that
the conversion accepts (present, not the `?` sentinel, and convertible)?
This is the condition under which the `default` helper sets its bit. -/
def supplies (ofs : List Str) (i : ℕ) (cnv : Str → Option PyV) : Bool :=
  match ofs[i]? with
  | none => false
  | some f => if f = str "?" then false else (cnv f).isSome

/-- One incoming message, as the dispatcher `gps.read` sees it: either a
raw legacy buffer, or a structured record already tokenized into a
key→value mapping by the external tokenizer (`self.data`). -/
inductive Msg where
  | legacy (buf : Str)
  | structured (dat : List (Str × PyV))

/-- The dispatch part of `gps.read` (source lines 300-307): a structured
record goes through the shim, marks the session new-style, and sets the
packet bit; a legacy buffer goes through the old-style unpacker and sets
the packet bit.  An escaping exception skips the post-processing. -/
def deliver (iso : PyV → PyV) (s : GpsState) : Msg → R
  | .legacy buf =>
    match oldstyle_unpack iso s buf with
    | (s', none) => ({ s' with valid := s'.valid ||| PACKET_SET }, none)
    | r => r
  | .structured dat =>
    match oldstyle_shim iso dat s with
    | (s', none) =>
      let s' := { s' with newstyle := true }
      ({ s' with valid := s'.valid ||| PACKET_SET }, none)
    | r => r

/-! ### Helper lemmas -/

theorem testBit_one_shiftLeft (i k : ℕ) : (1 <<< i).testBit k = decide (i = k) := by
  rw [Nat.one_shiftLeft]
  exact Nat.testBit_two_pow

theorem testBit_or_ite (y B k : ℕ) (c : Bool) :
    (y ||| (if c then B else 0)).testBit k = (y.testBit k || (c && B.testBit k)) := by
  cases c <;> simp [Nat.testBit_lor, Nat.zero_testBit]

/-- `bitIf c b` is `b` when `c` holds and `0` otherwise: the bitmask
contribution of one `default` call. -/
def bitIf (c : Bool) (b : ℕ) : ℕ := if c then b else 0

theorem testBit_bitIf (c : Bool) (b k : ℕ) :
    (bitIf c b).testBit k = (c && b.testBit k) := by
  cases c <;> simp [bitIf, Nat.zero_testBit]

/-- Characterization of the legacy `default` helper when the index is in
range: it never raises, returns some value, and ORs in its bit exactly
when the sub-field supplies a convertible value. -/
theorem oldDefault_eq (ofs : List Str) (i : ℕ) (vbit : ℕ) (cnv : Str → Option PyV)
    (s : GpsState) (h : i < ofs.length) :
    ∃ v, oldDefault ofs i vbit cnv s =
      .ok (v, { s with valid := s.valid ||| bitIf (supplies ofs i cnv) vbit }) := by
  unfold oldDefault supplies bitIf
  rw [List.getElem?_eq_getElem h]
  by_cases hq : ofs[i] = str "?"
  · refine ⟨.vnan, ?_⟩
    simp [hq]
  · cases hc : cnv ofs[i] with
    | none => refine ⟨.vnan, ?_⟩; simp [hq, hc]
    | some v => refine ⟨v, ?_⟩; simp [hq, hc]

/-- The exact validity mask produced by the tail of the fix-report
branch: each in-range `default` call contributes its bit exactly when its
sub-field supplies a convertible value, and the mode handling appends
either the mode sub-field's contribution (when sub-field 14 exists) or an
unconditional mode bit (the 2D/3D inference fallback). -/
theorem processO_rest_spec (ofs : List Str) (s : GpsState) (hlen : 14 ≤ ofs.length) :
    (processO_rest ofs s).2 = none ∧
    (processO_rest ofs s).1.valid =
      (let base := s.valid
        ||| bitIf (supplies ofs 2 cnvFloat) TIMERR_SET
        ||| bitIf (supplies ofs 3 cnvFloat) LATLON_SET
        ||| bitIf (supplies ofs 4 cnvFloat) 0
        ||| bitIf (supplies ofs 5 cnvFloat) ALTITUDE_SET
        ||| bitIf (supplies ofs 6 cnvFloat) HERR_SET
        ||| bitIf (supplies ofs 7 cnvFloat) VERR_SET
        ||| bitIf (supplies ofs 8 cnvFloat) TRACK_SET
        ||| bitIf (supplies ofs 9 cnvFloat) SPEED_SET
        ||| bitIf (supplies ofs 10 cnvFloat) CLIMB_SET
        ||| bitIf (supplies ofs 11 cnvFloat) 0
        ||| bitIf (supplies ofs 12 cnvFloat) SPEEDERR_SET
        ||| bitIf (supplies ofs 13 cnvFloat) CLIMBERR_SET
       if 14 < ofs.length then base ||| bitIf (supplies ofs 14 cnvInt) MODE_SET
       else base ||| MODE_SET) := by
  unfold processO_rest
  obtain ⟨v2, h2⟩ := oldDefault_eq ofs 2 TIMERR_SET cnvFloat s (by omega)
  rw [h2]; dsimp only
  obtain ⟨v3, h3⟩ := oldDefault_eq ofs 3 LATLON_SET cnvFloat _ (by omega)
  rw [h3]; dsimp only
  obtain ⟨v4, h4⟩ := oldDefault_eq ofs 4 0 cnvFloat _ (by omega)
  rw [h4]; dsimp only
  obtain ⟨v5, h5⟩ := oldDefault_eq ofs 5 ALTITUDE_SET cnvFloat _ (by omega)
  rw [h5]; dsimp only
  obtain ⟨v6, h6⟩ := oldDefault_eq ofs 6 HERR_SET cnvFloat _ (by omega)
  rw [h6]; dsimp only
  obtain ⟨v7, h7⟩ := oldDefault_eq ofs 7 VERR_SET cnvFloat _ (by omega)
  rw [h7]; dsimp only
  obtain ⟨v8, h8⟩ := oldDefault_eq ofs 8 TRACK_SET cnvFloat _ (by omega)
  rw [h8]; dsimp only
  obtain ⟨v9, h9⟩ := oldDefault_eq ofs 9 SPEED_SET cnvFloat _ (by omega)
  rw [h9]; dsimp only
  obtain ⟨v10, h10⟩ := oldDefault_eq ofs 10 CLIMB_SET cnvFloat _ (by omega)
  rw [h10]; dsimp only
  obtain ⟨v11, h11⟩ := oldDefault_eq ofs 11 0 cnvFloat _ (by omega)
  rw [h11]; dsimp only
  obtain ⟨v12, h12⟩ := oldDefault_eq ofs 12 SPEEDERR_SET cnvFloat _ (by omega)
  rw [h12]; dsimp only
  obtain ⟨v13, h13⟩ := oldDefault_eq ofs 13 CLIMBERR_SET cnvFloat _ (by omega)
  rw [h13]; dsimp only
  by_cases hm : 14 < ofs.length
  · rw [if_pos hm, if_pos hm]
    obtain ⟨vm, hmm⟩ := oldDefault_eq ofs 14 MODE_SET cnvInt _ hm
    rw [hmm]
    exact ⟨rfl, rfl⟩
  · rw [if_neg hm, if_neg hm]
    exact ⟨rfl, rfl⟩

/-! ### The claims -/

theorem or_testBit_false {a b k : ℕ} (h : (a ||| b).testBit k = false) :
    a.testBit k = false ∧ b.testBit k = false := by
  rw [Nat.testBit_lor] at h
  exact ⟨by cases ha : a.testBit k <;> simp [ha] at h ⊢, 
         by cases hb : b.testBit k <;> simp [hb] at h ⊢⟩

/-- Claim C1 as amended.  For a legacy fix report with at least 14
sub-fields whose first sub-field is not `?`: the decode succeeds, the
twelve bits of the cleared group {time, time-error, lat/lon, altitude,
horizontal-error, vertical-error, track, speed, climb, speed-error,
climb-error, mode} are re-derived so that each of the eleven value bits
is set afterwards if and only if its positional sub-field supplies a
parsable value (so a sub-field that is `?` or unparsable leaves its bit
absent, with no leakage from the previous mask), the mode bit is set iff
sub-field 14 supplies a parsable integer *or* sub-field 14 is absent
altogether (the 2D/3D inference fallback sets it unconditionally), and
every bit outside the group is preserved exactly. -/
theorem C1_amended (iso : PyV → PyV) (s : GpsState) (data : Str)
    (hlen : 14 ≤ (splitWs data).length)
    (h0 : (splitWs data).headI ≠ str "?") :
    (processO iso s data).2 = none ∧
    ((processO iso s data).1.valid.testBit 2 = supplies (splitWs data) 1 cnvFloat) ∧
    ((processO iso s data).1.valid.testBit 3 = supplies (splitWs data) 2 cnvFloat) ∧
    ((processO iso s data).1.valid.testBit 4 = supplies (splitWs data) 3 cnvFloat) ∧
    ((processO iso s data).1.valid.testBit 5 = supplies (splitWs data) 5 cnvFloat) ∧
    ((processO iso s data).1.valid.testBit 12 = supplies (splitWs data) 6 cnvFloat) ∧
    ((processO iso s data).1.valid.testBit 13 = supplies (splitWs data) 7 cnvFloat) ∧
    ((processO iso s data).1.valid.testBit 7 = supplies (splitWs data) 8 cnvFloat) ∧
    ((processO iso s data).1.valid.testBit 6 = supplies (splitWs data) 9 cnvFloat) ∧
    ((processO iso s data).1.valid.testBit 8 = supplies (splitWs data) 10 cnvFloat) ∧
    ((processO iso s data).1.valid.testBit 16 = supplies (splitWs data) 12 cnvFloat) ∧
    ((processO iso s data).1.valid.testBit 18 = supplies (splitWs data) 13 cnvFloat) ∧
    ((processO iso s data).1.valid.testBit 10 =
      (if 14 < (splitWs data).length then supplies (splitWs data) 14 cnvInt else true)) ∧
    (∀ k, OLD_FIX_MASK.testBit k = false →
      (processO iso s data).1.valid.testBit k = s.valid.testBit k) := by
  have h0lt : 0 < (splitWs data).length := by omega
  have h1lt : 1 < (splitWs data).length := by omega
  have e0 : (splitWs data)[0]? = some ((splitWs data).headI) := by
    rcases hx : splitWs data with _ | ⟨a, t⟩
    · rw [hx] at h0lt; simp at h0lt
    · simp
  obtain ⟨f1, e1⟩ : ∃ g, (splitWs data)[1]? = some g :=
    ⟨_, List.getElem?_eq_getElem h1lt⟩
  unfold processO
  dsimp only
  rw [e0]
  dsimp only
  rw [if_neg h0]
  rw [e1]
  dsimp only
  obtain ⟨v1, hv1⟩ := oldDefault_eq (splitWs data) 1 TIME_SET cnvFloat _ (by omega)
  rw [hv1]
  dsimp only
  cases hn : isnan v1
  all_goals
    refine ⟨(processO_rest_spec _ _ hlen).1, ?_⟩
  all_goals
    rw [(processO_rest_spec _ _ hlen).2]
  all_goals
    dsimp only
  all_goals
    by_cases hm : 14 < (splitWs data).length
  all_goals
    first
    | rw [if_pos hm]
    | rw [if_neg hm]
  all_goals
    refine ⟨?_, ?_, ?_, ?_, ?_, ?_, ?_, ?_, ?_, ?_, ?_, ?_, ?_⟩
  all_goals
    first
    | (intro k hk
       have hk0 := hk
       unfold OLD_FIX_MASK at hk
       obtain ⟨hk, hMODE⟩ := or_testBit_false hk
       obtain ⟨hk, hCLBE⟩ := or_testBit_false hk
       obtain ⟨hk, hSPDE⟩ := or_testBit_false hk
       obtain ⟨hk, hCLB⟩ := or_testBit_false hk
       obtain ⟨hk, hSPD⟩ := or_testBit_false hk
       obtain ⟨hk, hTRK⟩ := or_testBit_false hk
       obtain ⟨hk, hVERR⟩ := or_testBit_false hk
       obtain ⟨hk, hHERR⟩ := or_testBit_false hk
       obtain ⟨hk, hALT⟩ := or_testBit_false hk
       obtain ⟨hk, hLL⟩ := or_testBit_false hk
       obtain ⟨hTIME, hTR⟩ := or_testBit_false hk
       simp [Nat.testBit_lor, testBit_bitIf, testBit_pyAndNot, Nat.zero_testBit,
         hk0, hTIME, hTR, hLL, hALT, hHERR, hVERR, hTRK, hSPD, hCLB, hSPDE,
         hCLBE, hMODE])
    | (simp [Nat.testBit_lor, testBit_bitIf, testBit_pyAndNot]
       try simp [Nat.testBit, Nat.zero_testBit, OLD_FIX_MASK, TIME_SET, TIMERR_SET,
         LATLON_SET, ALTITUDE_SET, HERR_SET, VERR_SET, TRACK_SET, SPEED_SET,
         CLIMB_SET, SPEEDERR_SET, CLIMBERR_SET, MODE_SET]
       try exact fun hv => absurd hv (by omega)
       try exact Or.inl (by omega))

/-- Witness for C1 as amended: a concrete 14-sub-field fix report. -/
theorem C1_amended_witness :
    (processO isotime GpsState.init
      (str "MID2 1118327688.8 0.005 46.5 6.5 1327.0 ? ? ? ? ? ? ? ?")).2 = none ∧
    (processO isotime GpsState.init
      (str "MID2 1118327688.8 0.005 46.5 6.5 1327.0 ? ? ? ? ? ? ? ?")).1.valid.testBit 2 =
      supplies (splitWs (str "MID2 1118327688.8 0.005 46.5 6.5 1327.0 ? ? ? ? ? ? ? ?"))
        1 cnvFloat ∧
    (processO isotime GpsState.init
      (str "MID2 1118327688.8 0.005 46.5 6.5 1327.0 ? ? ? ? ? ? ? ?")).1.valid.testBit 15 =
      GpsState.init.valid.testBit 15 := by
  have h := C1_amended isotime GpsState.init
    (str "MID2 1118327688.8 0.005 46.5 6.5 1327.0 ? ? ? ? ? ? ? ?") (by decide) (by decide)
  exact ⟨h.1, h.2.1, h.2.2.2.2.2.2.2.2.2.2.2.2.2 15 (by decide)⟩

/-- Claim C1 counterexample.  The claimed equivalence "a bit in the
cleared group is set if and only if the corresponding positional
sub-field supplied a parsable value" fails for the mode bit: decoding a
fix report with exactly 14 sub-fields (indices 0-13, so there is no
positional sub-field 14 at all) still sets the mode bit, via the 2D/3D
inference fallback of lines 216-221. -/
theorem C1_counterexample :
    (splitWs (str "MID2 1118327688.8 0.005 46.5 6.5 1327.0 ? ? ? ? ? ? ? ?")).length = 14 ∧
    (splitWs (str "MID2 1118327688.8 0.005 46.5 6.5 1327.0 ? ? ? ? ? ? ? ?"))[14]? = none ∧
    (processO isotime GpsState.init
      (str "MID2 1118327688.8 0.005 46.5 6.5 1327.0 ? ? ? ? ? ? ? ?")).2 = none ∧
    (processO isotime GpsState.init
      (str "MID2 1118327688.8 0.005 46.5 6.5 1327.0 ? ? ? ? ? ? ? ?")).1.valid &&&
      MODE_SET ≠ 0 := by
  exact ⟨by decide, by decide, by decide, by decide⟩

/-- Claim C3 (confirmed).  Both decoders obey the shared `default` rule:
a legacy positional sub-field equal to `?` or failing numeric conversion
stores the NaN sentinel and leaves the validity bit unset, while a
present, parsable value is converted and sets the bit; a structured
absent key stores the default and leaves the bit unset, while a present
key stores the value and sets the bit; and the structured TPV record
`{"class":"TPV","lat":10.5,"lon":20.25}` with no `alt` key yields
latitude 10.5, longitude 20.25, altitude NaN, with the lat/lon bit set
and the altitude bit absent. -/
theorem C3_shared_default_rule :
    (∀ (ofs : List Str) (i : ℕ) (vbit : ℕ) (cnv : Str → Option PyV) (s : GpsState) (f : Str),
      ofs[i]? = some f →
      ((f = str "?" ∨ cnv f = none) → oldDefault ofs i vbit cnv s = .ok (.vnan, s)) ∧
      (∀ v, f ≠ str "?" → cnv f = some v →
        oldDefault ofs i vbit cnv s = .ok (v, { s with valid := s.valid ||| vbit }))) ∧
    (∀ (dat : List (Str × PyV)) (k : Str) (dflt : PyV) (vbit : ℕ) (s : GpsState),
      (lookup k dat = none → newDefault dat k dflt vbit s = (dflt, s)) ∧
      (∀ v, lookup k dat = some v →
        newDefault dat k dflt vbit s = (v, { s with valid := s.valid ||| vbit }))) ∧
    ((oldstyle_shim isotime
        [(str "class", .vstr (str "TPV")), (str "lat", .vfloat 105 (-1)),
         (str "lon", .vfloat 2025 (-2))] GpsState.init).2 = none ∧
     (oldstyle_shim isotime
        [(str "class", .vstr (str "TPV")), (str "lat", .vfloat 105 (-1)),
         (str "lon", .vfloat 2025 (-2))] GpsState.init).1.fix.latitude = .vfloat 105 (-1) ∧
     (oldstyle_shim isotime
        [(str "class", .vstr (str "TPV")), (str "lat", .vfloat 105 (-1)),
         (str "lon", .vfloat 2025 (-2))] GpsState.init).1.fix.longitude = .vfloat 2025 (-2) ∧
     (oldstyle_shim isotime
        [(str "class", .vstr (str "TPV")), (str "lat", .vfloat 105 (-1)),
         (str "lon", .vfloat 2025 (-2))] GpsState.init).1.fix.altitude = .vnan ∧
     (oldstyle_shim isotime
        [(str "class", .vstr (str "TPV")), (str "lat", .vfloat 105 (-1)),
         (str "lon", .vfloat 2025 (-2))] GpsState.init).1.valid &&& LATLON_SET ≠ 0 ∧
     (oldstyle_shim isotime
        [(str "class", .vstr (str "TPV")), (str "lat", .vfloat 105 (-1)),
         (str "lon", .vfloat 2025 (-2))] GpsState.init).1.valid &&& ALTITUDE_SET = 0) := by
  refine ⟨?_, ?_, rfl, rfl, rfl, rfl, by decide, by decide⟩
  · intro ofs i vbit cnv s f hf
    constructor
    · intro hbad
      unfold oldDefault
      rw [hf]
      rcases hbad with hq | hc
      · simp [hq]
      · by_cases hq : f = str "?"
        · simp [hq]
        · simp [hq, hc]
    · intro v hq hc
      unfold oldDefault
      rw [hf]
      simp [hq, hc]
  · intro dat k dflt vbit s
    constructor
    · intro hk
      unfold newDefault
      rw [hk]
    · intro v hk
      unfold newDefault
      rw [hk]

/-- Witness for C3: the theorem applied at concrete inputs. -/
theorem C3_witness :
    oldDefault [str "?"] 0 TIME_SET cnvFloat GpsState.init = .ok (.vnan, GpsState.init) ∧
    oldDefault [str "7"] 0 TIME_SET cnvFloat GpsState.init =
      .ok (.vfloat 7 0, { GpsState.init with valid := GpsState.init.valid ||| TIME_SET }) ∧
    newDefault [] (str "alt") .vnan ALTITUDE_SET GpsState.init = (.vnan, GpsState.init) := by
  refine ⟨(C3_shared_default_rule.1 [str "?"] 0 TIME_SET cnvFloat GpsState.init (str "?") rfl).1
      (Or.inl rfl),
    (C3_shared_default_rule.1 [str "7"] 0 TIME_SET cnvFloat GpsState.init (str "7") rfl).2
      (.vfloat 7 0) (by decide) rfl,
    (C3_shared_default_rule.2.1 [] (str "alt") .vnan ALTITUDE_SET GpsState.init).1 rfl⟩

/-- Claim C4 (code bug).  The source comment says the incoming TPV time
"can be either Unix time as a float or an ISO8601 string", with the
string form to be converted to epoch seconds; but line 264 branches on
`type(self.fix.time)` — the *previous* fix time — rather than on the
incoming value.  From a fresh session (whose fix time is the float NaN)
an ISO string time is therefore stored into `fix.time` verbatim, without
any conversion (the `isotime` collaborator is never invoked — the result
holds for every `iso`), contradicting the claim that after the decode the
stored fix time is numeric epoch seconds. -/
theorem C4_string_time_stored_raw (iso : PyV → PyV) :
    (oldstyle_shim iso
      [(str "class", .vstr (str "TPV")),
       (str "time", .vstr (str "2005-06-08T10:34:48.28Z"))] GpsState.init).2 = none ∧
    (oldstyle_shim iso
      [(str "class", .vstr (str "TPV")),
       (str "time", .vstr (str "2005-06-08T10:34:48.28Z"))] GpsState.init).1.fix.time =
      .vstr (str "2005-06-08T10:34:48.28Z") ∧
    isFloatType (.vstr (str "2005-06-08T10:34:48.28Z")) = false := by
  exact ⟨rfl, rfl, rfl⟩

/-- Claim C5 (code bug, same root cause as C4).  Delivering the identical
structured TPV message with an ISO string time twice from a fresh session
produces different states: the first delivery stores the raw string into
the fix time (the prior fix time is a float, see C4), the second finds a
string there and converts, so the fix time after the first and after the
second delivery differ — re-delivery is not idempotent. -/
theorem C5_not_idempotent :
    (deliver isotime GpsState.init
      (.structured [(str "class", .vstr (str "TPV")),
                    (str "time", .vstr (str "2005-06-08T10:34:48.28Z"))])).2 = none ∧
    (deliver isotime
      (deliver isotime GpsState.init
        (.structured [(str "class", .vstr (str "TPV")),
                      (str "time", .vstr (str "2005-06-08T10:34:48.28Z"))])).1
      (.structured [(str "class", .vstr (str "TPV")),
                    (str "time", .vstr (str "2005-06-08T10:34:48.28Z"))])).2 = none ∧
    (deliver isotime GpsState.init
      (.structured [(str "class", .vstr (str "TPV")),
                    (str "time", .vstr (str "2005-06-08T10:34:48.28Z"))])).1.fix.time =
      .vstr (str "2005-06-08T10:34:48.28Z") ∧
    (deliver isotime
      (deliver isotime GpsState.init
        (.structured [(str "class", .vstr (str "TPV")),
                      (str "time", .vstr (str "2005-06-08T10:34:48.28Z"))])).1
      (.structured [(str "class", .vstr (str "TPV")),
                    (str "time", .vstr (str "2005-06-08T10:34:48.28Z"))])).1.fix.time =
      .vfloat 2005060810344828 0 ∧
    (deliver isotime GpsState.init
      (.structured [(str "class", .vstr (str "TPV")),
                    (str "time", .vstr (str "2005-06-08T10:34:48.28Z"))])).1.fix.time ≠
    (deliver isotime
      (deliver isotime GpsState.init
        (.structured [(str "class", .vstr (str "TPV")),
                      (str "time", .vstr (str "2005-06-08T10:34:48.28Z"))])).1
      (.structured [(str "class", .vstr (str "TPV")),
                    (str "time", .vstr (str "2005-06-08T10:34:48.28Z"))])).1.fix.time := by
  refine ⟨rfl, rfl, rfl, rfl, ?_⟩
  intro h
  rw [show (deliver isotime GpsState.init
      (.structured [(str "class", .vstr (str "TPV")),
                    (str "time", .vstr (str "2005-06-08T10:34:48.28Z"))])).1.fix.time =
      .vstr (str "2005-06-08T10:34:48.28Z") from rfl] at h
  rw [show (deliver isotime
      (deliver isotime GpsState.init
        (.structured [(str "class", .vstr (str "TPV")),
                      (str "time", .vstr (str "2005-06-08T10:34:48.28Z"))])).1
      (.structured [(str "class", .vstr (str "TPV")),
                    (str "time", .vstr (str "2005-06-08T10:34:48.28Z"))])).1.fix.time =
      .vfloat 2005060810344828 0 from rfl] at h
  exact PyV.noConfusion h

/-- Claim C6 counterexample.  Decoding `"GPSD,O=?"` does *not* set the fix
mode to no-fix: the payload `"?"` is caught by the generic withheld-value
check (`data[0] == "?"`, line 171) before the fix-report branch runs, so
the whole field is skipped; from a state in 3D mode the mode stays 3D. -/
theorem C6_counterexample :
    (oldstyle_unpack isotime
      { GpsState.init with fix := { gpsfix.init with mode := .vint MODE_3D } }
      (str "GPSD,O=?")).2 = none ∧
    (oldstyle_unpack isotime
      { GpsState.init with fix := { gpsfix.init with mode := .vint MODE_3D } }
      (str "GPSD,O=?")).1.fix.mode = .vint MODE_3D ∧
    PyV.vint MODE_3D ≠ PyV.vint MODE_NO_FIX := by
  refine ⟨rfl, rfl, fun h => ?_⟩
  injection h with h'
  exact absurd h' (by decide)

/-- Claim C6 as amended.  A legacy fix-report field whose payload begins
with `?` (such as `"GPSD,O=?"`) is skipped entirely by the generic
withheld-value rule: no fix field and no validity bit changes (beyond the
unconditional reset of the fix time to 0.0 performed at decoder entry).
Only when the first whitespace-separated sub-field is `?` but the payload
does not begin with `?` (e.g. `"GPSD,O= ?"`) does the decoder set the
mode to no-fix and stop. -/
theorem C6_amended (iso : PyV → PyV) (s : GpsState) :
    oldstyle_unpack iso s (str "GPSD,O=?") =
      ({ s with fix := { s.fix with time := .vfloat 0 0 } }, none) ∧
    oldstyle_unpack iso s (str "GPSD,O= ?") =
      ({ s with fix := { s.fix with time := .vfloat 0 0, mode := .vint MODE_NO_FIX } }, none) := by
  exact ⟨rfl, rfl⟩

/-- The tail of the `DEVICE` branch never raises and never touches the
`path` attribute. -/
theorem deviceRest_path (dat : List (Str × PyV)) (s : GpsState) :
    (deviceRest dat s).1.path = s.path ∧ (deviceRest dat s).2 = none := by
  unfold deviceRest newDefault
  cases lookup (str "native") dat <;>
    cases lookup (str "bps") dat <;>
      cases lookup (str "serialmode") dat <;>
        cases lookup (str "cycle") dat <;>
          cases lookup (str "mincycle") dat <;>
            exact ⟨rfl, rfl⟩

/-- Two distinct class names cannot both match the record's `class` tag. -/
theorem classIs_unique (dat : List (Str × PyV)) (n1 n2 : Str)
    (h1 : classIs dat n1 = true) (hne : n1 ≠ n2) : classIs dat n2 = false := by
  unfold classIs at h1 ⊢
  rcases h : lookup (str "class") dat with _ | v
  · rw [h] at h1
  · rw [h] at h1
    cases v with
    | vstr s2 =>
      have h2 : s2 = n1 := of_decide_eq_true h1
      subst h2
      exact decide_eq_false hne
    | vnan => exact Bool.noConfusion h1
    | vfloat m e => exact Bool.noConfusion h1
    | vint n => exact Bool.noConfusion h1
    | vbool b => exact Bool.noConfusion h1
    | vnone => exact Bool.noConfusion h1
    | vlist xs => exact Bool.noConfusion h1
    | vdict kvs => exact Bool.noConfusion h1

/-- A mapping whose `class` is `"DEVICE"` is dispatched to the `DEVICE`
branch. -/
theorem shim_device_dispatch (iso : PyV → PyV) (dat : List (Str × PyV)) (s : GpsState)
    (hclass : classIs dat (str "DEVICE") = true) :
    oldstyle_shim iso dat s = processDevice dat s := by
  have hv : classIs dat (str "VERSION") = false :=
    classIs_unique dat (str "DEVICE") (str "VERSION") hclass (by decide)
  unfold oldstyle_shim
  rw [hv, hclass]
  simp

/-- The `gps_id` assembly and the rest of the `DEVICE` branch never raise
a `KeyError` and never touch `path`. -/
theorem deviceGpsId_facts (dat : List (Str × PyV)) (driver subtype : PyV) (s : GpsState) :
    (deviceGpsId dat driver subtype s).1.path = s.path ∧
    ∀ k, (deviceGpsId dat driver subtype s).2 ≠ some (.keyError k) := by
  unfold deviceGpsId
  cases htv : truthy subtype
  · exact ⟨(deviceRest_path dat s).1, fun k h =>
      Option.noConfusion ((deviceRest_path dat s).2.symm.trans h)⟩
  · cases hc : concatId driver subtype with
    | none => exact ⟨rfl, fun k h => by
        injection h with h2
        exact PyErr.noConfusion h2⟩
    | some g => exact ⟨(deviceRest_path dat _).1, fun k h =>
        Option.noConfusion ((deviceRest_path dat _).2.symm.trans h)⟩

/-- Claim C7 (confirmed).  A structured `DEVICE` record without a `path`
key fails the decode with a `KeyError`, after only the unconditional
bitmask assignment — there is no silent default; a `DEVICE` record with a
`path` key stores that path and the decode never fails with a missing-key
error. -/
theorem C7_device_path (iso : PyV → PyV) (dat : List (Str × PyV)) (s : GpsState)
    (hclass : classIs dat (str "DEVICE") = true) :
    (lookup (str "path") dat = none →
      oldstyle_shim iso dat s =
        ({ s with valid := ONLINE_SET ||| DEVICE_SET }, some (.keyError (str "path")))) ∧
    (∀ p, lookup (str "path") dat = some p →
      (oldstyle_shim iso dat s).1.path = p ∧
      ∀ k, (oldstyle_shim iso dat s).2 ≠ some (.keyError k)) := by
  rw [shim_device_dispatch iso dat s hclass]
  constructor
  · intro hp
    unfold processDevice
    rw [hp]
  · intro p hp
    unfold processDevice
    rw [hp]
    unfold newDefault
    rcases lookup (str "activated") dat with _ | a0 <;>
      rcases lookup (str "driver") dat with _ | d0 <;>
        rcases lookup (str "subtype") dat with _ | t0 <;>
          exact ⟨(deviceGpsId_facts dat _ _ _).1.trans rfl, (deviceGpsId_facts dat _ _ _).2⟩

/-- Witness for C7: concrete `DEVICE` records without and with `path`. -/
theorem C7_witness :
    oldstyle_shim isotime [(str "class", .vstr (str "DEVICE"))] GpsState.init =
      ({ GpsState.init with valid := ONLINE_SET ||| DEVICE_SET },
       some (.keyError (str "path"))) ∧
    (oldstyle_shim isotime
      [(str "class", .vstr (str "DEVICE")), (str "path", .vstr (str "/dev/ttyUSB0"))]
      GpsState.init).1.path = .vstr (str "/dev/ttyUSB0") := by
  refine ⟨(C7_device_path isotime [(str "class", .vstr (str "DEVICE"))] GpsState.init
      (by decide)).1 rfl,
    ((C7_device_path isotime
      [(str "class", .vstr (str "DEVICE")), (str "path", .vstr (str "/dev/ttyUSB0"))]
      GpsState.init (by decide)).2 (.vstr (str "/dev/ttyUSB0")) rfl).1⟩

/-- Claim C8 counterexample.  The claimed legacy satellite field
`"Y=2 1,10,80,200,40,1:2,20,150,90,35,0"` uses commas inside the
satellite blocks, but the legacy decoder splits the *whole message* on
commas first (line 164), so the `Y` payload is truncated to `"2 1"`;
decoding then raises an IndexError (the per-satellite loop indexes past
the empty block list) and the satellite sequence is not replaced — the
message does not yield two Satellite Records. -/
theorem C8_counterexample :
    (oldstyle_unpack isotime GpsState.init
      (str "GPSD,Y=2 1,10,80,200,40,1:2,20,150,90,35,0")).2 = some PyErr.indexError ∧
    (oldstyle_unpack isotime GpsState.init
      (str "GPSD,Y=2 1,10,80,200,40,1:2,20,150,90,35,0")).1.satellites = [] := by
  exact ⟨by decide, rfl⟩

/-- Claim C8 as amended.  With the satellite blocks written in the legacy
grammar (whitespace-separated integers inside colon-separated blocks),
`"GPSD,Y=2:1 10 80 40 1:2 20 150 35 0"` yields exactly two Satellite
Records — PRN 1 with a truthy `used` flag and PRN 2 with a falsy one —
and sets the satellite bit; a structured SKY update carrying the
equivalent satellite array replaces the sequence and recomputes the
satellites-used count to 1. -/
theorem C8_amended :
    (oldstyle_unpack isotime GpsState.init (str "GPSD,Y=2:1 10 80 40 1:2 20 150 35 0")).2 = none ∧
    (oldstyle_unpack isotime GpsState.init (str "GPSD,Y=2:1 10 80 40 1:2 20 150 35 0")).1.satellites =
      [⟨.vint 1, .vint 10, .vint 80, .vint 40, .vint 1⟩,
       ⟨.vint 2, .vint 20, .vint 150, .vint 35, .vint 0⟩] ∧
    truthy (PyV.vint 1) = true ∧ truthy (PyV.vint 0) = false ∧
    (oldstyle_unpack isotime GpsState.init
      (str "GPSD,Y=2:1 10 80 40 1:2 20 150 35 0")).1.valid &&& SATELLITE_SET ≠ 0 ∧
    (oldstyle_shim isotime
      [(str "class", .vstr (str "SKY")),
       (str "satellites", .vlist
         [.vdict [(str "PRN", .vint 1), (str "el", .vint 10), (str "az", .vint 80),
                  (str "ss", .vint 40), (str "used", .vbool true)],
          .vdict [(str "PRN", .vint 2), (str "el", .vint 20), (str "az", .vint 150),
                  (str "ss", .vint 35), (str "used", .vbool false)]])]
      GpsState.init).2 = none ∧
    (oldstyle_shim isotime
      [(str "class", .vstr (str "SKY")),
       (str "satellites", .vlist
         [.vdict [(str "PRN", .vint 1), (str "el", .vint 10), (str "az", .vint 80),
                  (str "ss", .vint 40), (str "used", .vbool true)],
          .vdict [(str "PRN", .vint 2), (str "el", .vint 20), (str "az", .vint 150),
                  (str "ss", .vint 35), (str "used", .vbool false)]])]
      GpsState.init).1.satellites_used = 1 ∧
    (oldstyle_shim isotime
      [(str "class", .vstr (str "SKY")),
       (str "satellites", .vlist
         [.vdict [(str "PRN", .vint 1), (str "el", .vint 10), (str "az", .vint 80),
                  (str "ss", .vint 40), (str "used", .vbool true)],
          .vdict [(str "PRN", .vint 2), (str "el", .vint 20), (str "az", .vint 150),
                  (str "ss", .vint 35), (str "used", .vbool false)]])]
      GpsState.init).1.valid &&& SATELLITE_SET ≠ 0 := by
  refine ⟨rfl, rfl, rfl, rfl, by decide, rfl, rfl, by decide⟩

/-- Claim C2 counterexample.  After a legacy `Y` message sets the
satellite bit, a subsequent structured TPV record does *not* leave it
set: the TPV branch assigns `self.valid = ONLINE_SET` wholesale (line
260), wiping every bit a prior message had set, including the satellite
bit. -/
theorem C2_counterexample :
    (deliver isotime GpsState.init (.legacy (str "GPSD,Y=1:1 10 80 40 1"))).1.valid &&&
      SATELLITE_SET ≠ 0 ∧
    (deliver isotime
      (deliver isotime GpsState.init (.legacy (str "GPSD,Y=1:1 10 80 40 1"))).1
      (.structured [(str "class", .vstr (str "TPV"))])).2 = none ∧
    (deliver isotime
      (deliver isotime GpsState.init (.legacy (str "GPSD,Y=1:1 10 80 40 1"))).1
      (.structured [(str "class", .vstr (str "TPV"))])).1.valid &&& SATELLITE_SET = 0 := by
  exact ⟨by decide, rfl, by decide⟩

/-- Claim C2 as amended.  Feeding a legacy message and then a structured
message to the same session decodes both without error, and the legacy
decoder clears only the bits of the groups it re-derives; but each
structured decode reassigns the validity mask wholesale, so after a
legacy `Y` message sets the satellite bit a subsequent structured TPV
record leaves the satellite *data* intact while clearing the satellite
bit: the final mask is exactly the online bit plus the packet bit (plus
any bits of keys the TPV record carries - none here). -/
theorem C2_amended :
    (deliver isotime GpsState.init (.legacy (str "GPSD,Y=1:1 10 80 40 1"))).2 = none ∧
    (deliver isotime GpsState.init (.legacy (str "GPSD,Y=1:1 10 80 40 1"))).1.valid =
      SATELLITE_SET ||| PACKET_SET ∧
    (deliver isotime
      (deliver isotime GpsState.init (.legacy (str "GPSD,Y=1:1 10 80 40 1"))).1
      (.structured [(str "class", .vstr (str "TPV"))])).2 = none ∧
    (deliver isotime
      (deliver isotime GpsState.init (.legacy (str "GPSD,Y=1:1 10 80 40 1"))).1
      (.structured [(str "class", .vstr (str "TPV"))])).1.valid =
      ONLINE_SET ||| PACKET_SET ∧
    (deliver isotime
      (deliver isotime GpsState.init (.legacy (str "GPSD,Y=1:1 10 80 40 1"))).1
      (.structured [(str "class", .vstr (str "TPV"))])).1.satellites =
      [⟨.vint 1, .vint 10, .vint 80, .vint 40, .vint 1⟩] := by
  refine ⟨rfl, by decide, rfl, by decide, rfl⟩

/-- Claim C9 counterexample.  The legacy decoder is not total over
sentinel-prefixed input: the message `"GPSD,X"` contains a one-character
field (shorter than two characters, hence lacking the `key=value` shape),
and instead of being skipped it raises an IndexError at `field[1]`. -/
theorem C9_counterexample :
    (oldstyle_unpack isotime GpsState.init (str "GPSD,X")).2 = some PyErr.indexError := by
  decide

/-- Claim C9 as amended.  Empty fields and fields of length at least two
without `=` in second position are skipped without error, and an `O`
sub-field that fails float conversion degrades to NaN without error; but
a one-character field raises IndexError at `field[1]`, a field with an
empty payload (such as `"O="`) raises IndexError at `data[0]`, and an
online-status (`X`) field whose value fails float conversion raises
ValueError, aborting the message decode. -/
theorem C9_amended :
    (∀ (iso : PyV → PyV) (s : GpsState), processField1 iso s [] = (s, none)) ∧
    (∀ (iso : PyV → PyV) (s : GpsState) (c0 c1 : Char) (rest : Str), c1 ≠ '=' →
      processField1 iso s (c0 :: c1 :: rest) = (s, none)) ∧
    (∀ (iso : PyV → PyV) (s : GpsState) (c : Char),
      processField1 iso s [c] = (s, some .indexError)) ∧
    (∀ (iso : PyV → PyV) (s : GpsState) (c0 : Char),
      processField1 iso s [c0, '='] = (s, some .indexError)) ∧
    (∀ (ofs : List Str) (i vbit : ℕ) (s : GpsState) (f : Str),
      ofs[i]? = some f → f ≠ str "?" → cnvFloat f = none →
      oldDefault ofs i vbit cnvFloat s = .ok (.vnan, s)) ∧
    (∀ (iso : PyV → PyV) (s : GpsState) (d0 : Char) (rest : Str), d0 ≠ '?' →
      pyFloat? (d0 :: rest) = none →
      processField1 iso s ('X' :: '=' :: d0 :: rest) = (s, some .valueError)) := by
  refine ⟨fun iso s => rfl, ?_, fun iso s c => rfl, ?_, ?_, ?_⟩
  · intro iso s c0 c1 rest h
    simp only [processField1]
    rw [if_pos h]
  · intro iso s c0
    show processData iso s c0.toUpper [] = (s, some PyErr.indexError)
    rfl
  · intro ofs i vbit s f hf hq hc
    unfold oldDefault
    rw [hf]
    simp [hq, hc]
  · intro iso s d0 rest hd0 hfl
    show processData iso s 'X'.toUpper (d0 :: rest) = (s, some PyErr.valueError)
    simp only [processData]
    rw [if_neg hd0]
    rw [if_neg (by decide : ¬(Char.toUpper 'X' = 'F'))]
    rw [if_neg (by decide : ¬(Char.toUpper 'X' = 'I'))]
    rw [if_neg (by decide : ¬(Char.toUpper 'X' = 'O'))]
    rw [if_pos (by decide : Char.toUpper 'X' = 'X')]
    rw [hfl]

/-- Witness for C9 as amended: concrete fields of each kind. -/
theorem C9_amended_witness :
    processField1 isotime GpsState.init (str "GPSD") = (GpsState.init, none) ∧
    processField1 isotime GpsState.init (str "O=") = (GpsState.init, some .indexError) ∧
    processField1 isotime GpsState.init (str "X=abc") = (GpsState.init, some .valueError) ∧
    oldDefault [str "abc"] 0 TIME_SET cnvFloat GpsState.init = .ok (.vnan, GpsState.init) := by
  refine ⟨C9_amended.2.1 isotime GpsState.init 'G' 'P' (str "SD") (by decide),
    C9_amended.2.2.2.1 isotime GpsState.init 'O',
    C9_amended.2.2.2.2.2 isotime GpsState.init 'a' (str "bc") (by decide) rfl,
    C9_amended.2.2.2.2.1 [str "abc"] 0 TIME_SET GpsState.init (str "abc") rfl (by decide) rfl⟩

/-- Is a comma-separated field an `O` (fix-report) field — i.e. does it
have `=` in second position and command letter `O`?  Only such fields can
touch the fix time after the decoder's entry reset. -/
def isOFieldB : Str → Bool
  | c0 :: c1 :: _ => c1 = '=' && c0.toUpper = 'O'
  | _ => false

/-- The satellite (`Y`) branch never touches the fix time or the time
validity bit. -/
theorem processY_frame (s : GpsState) (data : Str) :
    (processY s data).1.fix.time = s.fix.time ∧
    (processY s data).1.valid.testBit 2 = s.valid.testBit 2 := by
  unfold processY
  dsimp only
  cases hL : (splitWs (splitSep ':' data).headI).getLast? with
  | none => exact ⟨rfl, rfl⟩
  | some t =>
    dsimp only
    cases hI : pyInt? t with
    | none => exact ⟨rfl, rfl⟩
    | some d1 =>
      dsimp only
      cases hB : buildSats (splitSep ':' data).tail 0 d1.toNat with
      | error e => exact ⟨rfl, rfl⟩
      | ok newsats =>
        refine ⟨rfl, ?_⟩
        show (s.valid ||| SATELLITE_SET).testBit 2 = s.valid.testBit 2
        rw [Nat.testBit_lor, show SATELLITE_SET.testBit 2 = false from by decide,
          Bool.or_false]

/-- Processing a non-`O` field never touches the fix time or the time
validity bit. -/
theorem processField1_no_O (iso : PyV → PyV) (t : GpsState) (f : Str)
    (hf : isOFieldB f = false) :
    (processField1 iso t f).1.fix.time = t.fix.time ∧
    (processField1 iso t f).1.valid.testBit 2 = t.valid.testBit 2 := by
  match f with
  | [] => exact ⟨rfl, rfl⟩
  | [c] => exact ⟨rfl, rfl⟩
  | c0 :: c1 :: rest =>
    simp only [processField1]
    by_cases h1 : c1 ≠ '='
    · rw [if_pos h1]; exact ⟨rfl, rfl⟩
    · rw [if_neg h1]
      push_neg at h1
      subst h1
      have hO : ¬(c0.toUpper = 'O') := by
        unfold isOFieldB at hf
        simpa using hf
      cases rest with
      | nil => exact ⟨rfl, rfl⟩
      | cons d0 dr =>
        simp only [processData]
        by_cases hq : d0 = '?'
        · rw [if_pos hq]; exact ⟨rfl, rfl⟩
        · rw [if_neg hq]
          by_cases hF : c0.toUpper = 'F'
          · rw [if_pos hF]; exact ⟨rfl, rfl⟩
          · rw [if_neg hF]
            by_cases hI : c0.toUpper = 'I'
            · rw [if_pos hI]; exact ⟨rfl, rfl⟩
            · rw [if_neg hI]
              rw [if_neg hO]
              by_cases hX : c0.toUpper = 'X'
              · rw [if_pos hX]
                cases pyFloat? (d0 :: dr) with
                | none => exact ⟨rfl, rfl⟩
                | some v =>
                  refine ⟨rfl, ?_⟩
                  show (t.valid ||| ONLINE_SET).testBit 2 = t.valid.testBit 2
                  rw [Nat.testBit_lor, show ONLINE_SET.testBit 2 = false from by decide,
                    Bool.or_false]
              · rw [if_neg hX]
                by_cases hY : c0.toUpper = 'Y'
                · rw [if_pos hY]
                  exact processY_frame t (d0 :: dr)
                · rw [if_neg hY]; exact ⟨rfl, rfl⟩

/-- The field loop over non-`O` fields never touches the fix time or the
time validity bit. -/
theorem foldl_no_O (iso : PyV → PyV) (l : List Str)
    (hl : ∀ f ∈ l, isOFieldB f = false) (r : R) :
    ((l.foldl (stepField iso) r).1.fix.time = r.1.fix.time) ∧
    ((l.foldl (stepField iso) r).1.valid.testBit 2 = r.1.valid.testBit 2) := by
  induction l generalizing r with
  | nil => exact ⟨rfl, rfl⟩
  | cons f fs ih =>
    have hf := hl f (List.mem_cons_self f fs)
    have hfs : ∀ g ∈ fs, isOFieldB g = false := fun g hg => hl g (List.mem_cons_of_mem f hg)
    rcases r with ⟨t, e⟩
    cases e with
    | some err =>
      simp only [List.foldl_cons]
      exact ih hfs (t, some err)
    | none =>
      simp only [List.foldl_cons]
      have h1 := processField1_no_O iso t f hf
      have h2 := ih hfs (processField1 iso t f)
      exact ⟨h2.1.trans h1.1, h2.2.trans h1.2⟩

/-- Claim C10 (confirmed).  Every invocation of the legacy decoder sets
the fix time to the float 0.0 before looking at any field; hence a
sentinel-prefixed message containing no fix-report (`O`) field leaves the
fix time equal to 0.0 — not the previous value, not NaN — while the time
validity bit is not newly set (it is preserved exactly, so if it was
unset before, it stays unset). -/
theorem C10_time_reset (iso : PyV → PyV) (s : GpsState) (buf : Str)
    (hd : (splitSep ',' (pyStrip buf)).headI = str "GPSD")
    (hno : ∀ f ∈ (splitSep ',' (pyStrip buf)).tail, isOFieldB f = false) :
    (oldstyle_unpack iso s buf).1.fix.time = .vfloat 0 0 ∧
    (oldstyle_unpack iso s buf).1.valid.testBit 2 = s.valid.testBit 2 := by
  unfold oldstyle_unpack
  rw [if_pos hd]
  exact ⟨(foldl_no_O iso _ hno _).1, (foldl_no_O iso _ hno _).2⟩

/-- Witness for C10: a message with only online-status and device-path
fields, decoded from a fresh session. -/
theorem C10_witness :
    (oldstyle_unpack isotime GpsState.init (str "GPSD,X=1,F=/dev/ttyS0")).1.fix.time =
      .vfloat 0 0 ∧
    (oldstyle_unpack isotime GpsState.init (str "GPSD,X=1,F=/dev/ttyS0")).1.valid.testBit 2 =
      GpsState.init.valid.testBit 2 := by
  exact C10_time_reset isotime GpsState.init (str "GPSD,X=1,F=/dev/ttyS0")
    (by decide) (by decide)

end Gpsd
